import Mathlib

/-!
Verification development for `taro-fetch-event-source`, an SSE (Server-Sent
Events) client for Taro.js layered on a chunked HTTP transport.

The development shallowly embeds the three layers of the core:

* the manual UTF-8 byte-to-text decoder `uint8ArrayToUtf8`
  (src/unnamed/part_001, lines 8-84), modelled on byte lists producing
  UTF-16 code-unit lists (JS strings are code-unit sequences);
* the incremental SSE frame parser inside `handleChunk`
  (src/src/index.ts, lines 222-295), modelled on decoded text
  (JS strings modelled as `List Char`);
* the session controller / retry policy: the closures `connect`, `abort`,
  `scheduleRetry` and the transport signal handlers (`success`, `fail`,
  `onHeadersReceived`, `onChunkReceived`) of `fetchEventSource`
  (src/src/index.ts, lines 65-301), modelled as a state-transition system
  whose steps return the successor state together with the list of
  observable callback invocations.
-/

namespace TaroSSE

/-! ## ByteToTextDecoder: `uint8ArrayToUtf8` (src/unnamed/part_001, lines 8-84)

The source walks the byte array with an index `i`, emitting UTF-16 code
units via `String.fromCharCode`.  We model the byte array as `List Nat`
(each entry the value of one byte) and the produced JS string as the list
of UTF-16 code units.  `break` in the source stops the whole loop and
returns the result accumulated so far; in the recursion it is the empty
continuation `[]`. -/

/-- The two-byte branch body (part_001, lines 22-29), given the already
matched bytes and the decoding of the remaining bytes.  `break` in the
source stops the loop before the remainder is decoded; decoding is pure,
so returning `[]` while ignoring `tail` is the same thing. -/
def decodeTwoByte (byte byte2 : Nat) (tail : List Nat) : List Nat :=
  if byte2 &&& 0xc0 ≠ 0x80 then []                 -- 检查是否为 10xxxxxx: break
  else (((byte &&& 0x1f) <<< 6) ||| (byte2 &&& 0x3f)) :: tail

/-- The three-byte branch body (part_001, lines 31-46).  Both arms of the
surrogate-range test in the source emit the same single code unit, so the
test has no observable effect and is omitted. -/
def decodeThreeByte (byte byte2 byte3 : Nat) (tail : List Nat) : List Nat :=
  if byte2 &&& 0xc0 ≠ 0x80 ∨ byte3 &&& 0xc0 ≠ 0x80 then []
  else
    (((byte &&& 0x0f) <<< 12) ||| ((byte2 &&& 0x3f) <<< 6) ||| (byte3 &&& 0x3f)) :: tail

/-- The four-byte branch body (part_001, lines 48-76): codepoints above
the BMP are emitted as a UTF-16 surrogate pair. -/
def decodeFourByte (byte byte2 byte3 byte4 : Nat) (tail : List Nat) : List Nat :=
  if byte2 &&& 0xc0 ≠ 0x80 ∨ byte3 &&& 0xc0 ≠ 0x80 ∨ byte4 &&& 0xc0 ≠ 0x80 then []
  else
    let codepoint :=
      ((byte &&& 0x07) <<< 18) ||| ((byte2 &&& 0x3f) <<< 12) |||
        ((byte3 &&& 0x3f) <<< 6) ||| (byte4 &&& 0x3f)
    if 0xffff < codepoint then
      let cp := codepoint - 0x10000
      (0xd800 + (cp >>> 10)) :: (0xdc00 + (cp &&& 0x3ff)) :: tail
    else
      codepoint :: tail

/-- The manual UTF-8 decoder, translated from `uint8ArrayToUtf8`.  Input:
bytes; output: UTF-16 code units of the resulting JS string.  The source's
bounds checks `i + k >= len` (which `break`, dropping a truncated trailing
multi-byte sequence) are resolved here by case analysis on how many bytes
remain, so each top-level pattern carries the same if-chain on the leading
byte with the branches that would run out of input replaced by `[]`:

* one byte `0xxxxxxx` (line 17): emit it;
* leading byte `0xc2-0xdf`: two-byte branch, `decodeTwoByte`;
* leading byte `0xe0-0xef`: three-byte branch, `decodeThreeByte`;
* leading byte `0xf0-0xf4`: four-byte branch, `decodeFourByte`;
* anything else (无效字节): skip the byte and continue (line 79). -/
def uint8ArrayToUtf8 : List Nat → List Nat
  | [] => []
  | [byte] =>
    if byte < 0x80 then byte :: uint8ArrayToUtf8 []
    else if 0xc2 ≤ byte ∧ byte ≤ 0xdf then []      -- i + 1 >= len: break
    else if 0xe0 ≤ byte ∧ byte ≤ 0xef then []      -- i + 2 >= len: break
    else if 0xf0 ≤ byte ∧ byte ≤ 0xf4 then []      -- i + 3 >= len: break
    else uint8ArrayToUtf8 []
  | [byte, byte2] =>
    if byte < 0x80 then byte :: uint8ArrayToUtf8 [byte2]
    else if 0xc2 ≤ byte ∧ byte ≤ 0xdf then decodeTwoByte byte byte2 (uint8ArrayToUtf8 [])
    else if 0xe0 ≤ byte ∧ byte ≤ 0xef then []      -- i + 2 >= len: break
    else if 0xf0 ≤ byte ∧ byte ≤ 0xf4 then []      -- i + 3 >= len: break
    else uint8ArrayToUtf8 [byte2]
  | [byte, byte2, byte3] =>
    if byte < 0x80 then byte :: uint8ArrayToUtf8 [byte2, byte3]
    else if 0xc2 ≤ byte ∧ byte ≤ 0xdf then decodeTwoByte byte byte2 (uint8ArrayToUtf8 [byte3])
    else if 0xe0 ≤ byte ∧ byte ≤ 0xef then decodeThreeByte byte byte2 byte3 (uint8ArrayToUtf8 [])
    else if 0xf0 ≤ byte ∧ byte ≤ 0xf4 then []      -- i + 3 >= len: break
    else uint8ArrayToUtf8 [byte2, byte3]
  | byte :: byte2 :: byte3 :: byte4 :: rest4 =>
    if byte < 0x80 then byte :: uint8ArrayToUtf8 (byte2 :: byte3 :: byte4 :: rest4)
    else if 0xc2 ≤ byte ∧ byte ≤ 0xdf then
      decodeTwoByte byte byte2 (uint8ArrayToUtf8 (byte3 :: byte4 :: rest4))
    else if 0xe0 ≤ byte ∧ byte ≤ 0xef then
      decodeThreeByte byte byte2 byte3 (uint8ArrayToUtf8 (byte4 :: rest4))
    else if 0xf0 ≤ byte ∧ byte ≤ 0xf4 then
      decodeFourByte byte byte2 byte3 byte4 (uint8ArrayToUtf8 rest4)
    else uint8ArrayToUtf8 (byte2 :: byte3 :: byte4 :: rest4)

/-- Reference definition of UTF-8 encoding of a single Unicode scalar
value, used only to state which byte sequences are valid UTF-8 (the
hypothesis of the chunk-boundary-independence property). -/
def utf8EncodeScalar (c : Nat) : List Nat :=
  if c < 0x80 then [c]
  else if c < 0x800 then
    [0xc0 ||| (c >>> 6), 0x80 ||| (c &&& 0x3f)]
  else if c < 0x10000 then
    [0xe0 ||| (c >>> 12), 0x80 ||| ((c >>> 6) &&& 0x3f), 0x80 ||| (c &&& 0x3f)]
  else
    [0xf0 ||| (c >>> 18), 0x80 ||| ((c >>> 12) &&& 0x3f),
     0x80 ||| ((c >>> 6) &&& 0x3f), 0x80 ||| (c &&& 0x3f)]

/-- A byte list is valid UTF-8 text iff it is the concatenation of the
encodings of a list of Unicode scalar values. -/
def ValidUtf8 (bytes : List Nat) : Prop :=
  ∃ cps : List Nat,
    (∀ c ∈ cps, (c < 0xd800 ∨ 0xe000 ≤ c) ∧ c < 0x110000) ∧
    bytes = (cps.map utf8EncodeScalar).flatten

/-! ## FrameParser: the text-level part of `handleChunk`
(src/src/index.ts, lines 222-295)

JS strings are modelled as `List Char`.  `handleChunk` first decodes the
received bytes to text (via `TextDecoder` in src/src/index.ts, via
`uint8ArrayToUtf8` in the variant src/unnamed/part_001) and then parses the
text; the parsing part is modelled here as `feedText`, operating on the
decoded text. -/

/-- `EventSourceMessage` (src/src/index.ts, lines 57-61): the object passed
to `onmessage`. -/
structure EventSourceMessage where
  id : Option (List Char)
  event : Option (List Char)
  data : List Char
  deriving DecidableEq, Repr

/-- The `Partial<EventSourceMessage>` accumulator `message` local to one
`handleChunk` call (line 239). -/
structure PendingMessage where
  id : Option (List Char) := none
  event : Option (List Char) := none
  data : Option (List Char) := none
  deriving DecidableEq, Repr

/-- Field/value split of a non-blank, non-comment line
(src/src/index.ts, lines 266-274): `colonIndex = line.indexOf(":")`;
field is the text before the first colon when `colonIndex > 0`, otherwise
the whole line; value is the text after the first colon (empty when there
is none), with exactly one leading space stripped. -/
def parseFieldValue (line : List Char) : List Char × List Char :=
  match line.splitOn ':' with
  | [] => (line, [])
  | [_] => (line, [])        -- no colon: field = line, value = ""
  | [] :: _ => (line, [])    -- colon at index 0: colonIndex > 0 is false
  | f :: restParts =>
    let value := List.intercalate [':'] restParts
    (f, if value.head? = some ' ' then value.tail else value)

/-- The running data of the `for (const line of lines)` loop of
`handleChunk`: the session's `lastEventId`, the `message` accumulator, and
the messages delivered to `onmessage` so far (in order). -/
structure ParseAcc where
  lastEventId : List Char
  message : PendingMessage := {}
  emitted : List EventSourceMessage := []
  deriving Repr

/-- One iteration of the line loop (src/src/index.ts, lines 241-290). -/
def processLine (a : ParseAcc) (line : List Char) : ParseAcc :=
  -- 空行表示消息结束
  if line = ['\r'] ∨ line = [] then
    match a.message.data with
    | none => { a with message := {} }
    | some d =>
      { lastEventId :=
          match a.message.id with                  -- if (message.id): JS truthiness,
          | some i => if i = [] then a.lastEventId else i  -- "" is falsy
          | none => a.lastEventId,
        message := {},
        emitted := a.emitted ++ [⟨a.message.id, a.message.event, d⟩] }
  -- 注释行
  else if line.head? = some ':' then a
  else
    let fv := parseFieldValue line
    if fv.1 = "event".toList then
      { a with message := { a.message with event := some fv.2 } }
    else if fv.1 = "data".toList then
      { a with message :=
          { a.message with data := some ((a.message.data.getD []) ++ fv.2 ++ ['\n']) } }
    else if fv.1 = "id".toList then
      { a with message := { a.message with id := some fv.2 } }
    else a                                         -- "retry" and unknown fields

/-- One `handleChunk` call at the text level (src/src/index.ts, lines
232-290): append the decoded text to `buffer`, split on `"\n"`, keep the
last (possibly incomplete) segment as the new `buffer`, and run the line
loop — with a fresh `message` accumulator — over the complete lines.
Returns (new buffer, new lastEventId, messages delivered in order). -/
def feedText (buffer lastEventId text : List Char) :
    List Char × List Char × List EventSourceMessage :=
  let parts := (buffer ++ text).splitOn '\n'
  let a := (parts.dropLast).foldl processLine ⟨lastEventId, {}, []⟩
  (parts.getLastD [], a.lastEventId, a.emitted)

/-! ## SessionController / RetryPolicy
(`fetchEventSource`, src/src/index.ts, lines 65-301)

The session's mutable closure variables (`retryCount`, `isAborted`,
`lastEventId`, `buffer`, `requestTask`, `retryTimer`) form the state.  The
externally triggered entry points — `connect`, `abort`, the timer callback,
and the four transport signals (`success`, `fail`, `onHeadersReceived`,
`onChunkReceived`) — are modelled as step functions returning the successor
state together with the list of observable calls made during the step.

User callbacks cannot be embedded as functions, so their observable
behaviour is a parameter of the step that invokes them: whether `onopen` /
`onclose` raises, and what `onerror` returns (`none` models both
`null`/`undefined` and an absent callback's `undefined`).  The
configuration records which callbacks were supplied, since
`onopen?.`/`onmessage?.`/... skip the call when the callback is absent. -/

/-- `DefaultRetryInterval` (src/src/index.ts, line 5). -/
def DefaultRetryInterval : Nat := 1000

/-- The `LastEventId` header name (src/src/index.ts, line 6). -/
def LastEventIdHeader : List Char := "last-event-id".toList

/-- The options of `FetchEventSourceInit` that the state machine reads,
plus presence flags for the optional callbacks. -/
structure Config where
  inputHeaders : List Char → Option (List Char)
  openWhenHidden : Bool
  maxRetryCount : Option Nat
  hasOnopen : Bool
  hasOnmessage : Bool
  hasOnclose : Bool
  hasOnerror : Bool

/-- One observable call made by the library during a step. -/
inductive CallbackCall where
  /-- user `onopen` invoked -/
  | onopen
  /-- user `onmessage` invoked with this message -/
  | onmessage (m : EventSourceMessage)
  /-- user `onclose` invoked -/
  | onclose
  /-- user `onerror` invoked -/
  | onerror
  /-- `console.warn("Max retry count reached")` (line 211) -/
  | logWarn
  /-- `console.error(...)` -/
  | logError
  /-- the `FatalError` thrown inside the async `onHeadersReceived` handler
  (line 175) surfaces as an unhandled promise rejection: the handler's
  promise rejects after `connect`'s try block has already completed, so the
  `catch` at lines 183-203 never sees it -/
  | unhandledRejection
  deriving DecidableEq, Repr

/-- The mutable closure variables of `fetchEventSource`
(src/src/index.ts, lines 80-89).  `hasRequestTask` abstracts whether
`requestTask` is non-null; `retryTimer` records the pending timer's delay
when one is outstanding. -/
structure SessionState where
  retryCount : Nat
  isAborted : Bool
  lastEventId : List Char
  buffer : List Char
  hasRequestTask : Bool
  retryTimer : Option Nat
  deriving DecidableEq, Repr

/-- The state at entry to `fetchEventSource`, before the initial
`connect()` (lines 80-89). -/
def initialState : SessionState :=
  { retryCount := 0, isAborted := false, lastEventId := [], buffer := [],
    hasRequestTask := false, retryTimer := none }

/-- `abort` (lines 91-107): set `isAborted`, cancel the in-flight request
(cancellation errors are swallowed after logging), clear the retry timer
and the buffer.  No user callback is invoked. -/
def abortStep (s : SessionState) : SessionState :=
  { s with isAborted := true, hasRequestTask := false, retryTimer := none,
           buffer := [] }

/-- The request headers `connect` passes to `Taro.request` (lines
112-115, 121): the caller-supplied headers, with `last-event-id` set to
`lastEventId` when the latter is non-empty. -/
def requestHeaders (cfg : Config) (lastEventId : List Char)
    (key : List Char) : Option (List Char) :=
  if lastEventId ≠ [] ∧ key = LastEventIdHeader then some lastEventId
  else cfg.inputHeaders key

/-- `connect` (lines 109-204): no-op when aborted; otherwise issues the
request (with headers `requestHeaders`) and registers the transport
handlers.  `Taro.request` and the handler registrations are modelled as
not raising synchronously, so the `catch` block at lines 183-203 — which
only receives errors raised synchronously during the `try` block, not
errors raised later inside the registered handlers — is not exercised. -/
def connectStep (s : SessionState) : SessionState :=
  if s.isAborted then s else { s with hasRequestTask := true }

/-- `scheduleRetry` (lines 206-220): no-op when aborted; when a maximum
retry count is configured and `retryCount` has reached it, only logs a
warning; otherwise increments `retryCount` and sets the timer. -/
def scheduleRetry (cfg : Config) (delayMs : Nat) (s : SessionState) :
    SessionState × List CallbackCall :=
  if s.isAborted then (s, [])
  else
    match cfg.maxRetryCount with
    | some m =>
      if m ≤ s.retryCount then (s, [CallbackCall.logWarn])
      else ({ s with retryCount := s.retryCount + 1, retryTimer := some delayMs }, [])
    | none =>
      ({ s with retryCount := s.retryCount + 1, retryTimer := some delayMs }, [])

/-- The `success` transport signal (clean stream end, lines 126-146): when
not aborted, reset `retryCount` to 0, drop the request task, call
`onclose` (an error from it is logged, not propagated), and — still not
aborted and not `openWhenHidden` — schedule a retry with the default
interval. -/
def successStep (cfg : Config) (oncloseThrows : Bool) (s : SessionState) :
    SessionState × List CallbackCall :=
  if s.isAborted then (s, [])
  else
    let s1 : SessionState := { s with retryCount := 0, hasRequestTask := false }
    let outs : List CallbackCall :=
      if cfg.hasOnclose then
        if oncloseThrows then [CallbackCall.onclose, CallbackCall.logError]
        else [CallbackCall.onclose]
      else []
    if ¬ s1.isAborted ∧ ¬ cfg.openWhenHidden then
      let r := scheduleRetry cfg DefaultRetryInterval s1
      (r.1, outs ++ r.2)
    else (s1, outs)

/-- The `fail` transport signal (lines 147-165): when not aborted, drop
the request task, call `onerror` to obtain the retry delay (an exception
from `onerror`, or an absent `onerror`, yields no delay), and schedule a
retry when the delay is non-null. -/
def failStep (cfg : Config) (onerrorThrows : Bool) (onerrorReturn : Option Nat)
    (s : SessionState) : SessionState × List CallbackCall :=
  if s.isAborted then (s, [])
  else
    let s1 : SessionState := { s with hasRequestTask := false }
    let outs : List CallbackCall :=
      if cfg.hasOnerror then [CallbackCall.onerror] else []
    let retryDelay : Option Nat :=
      if cfg.hasOnerror then (if onerrorThrows then none else onerrorReturn)
      else none
    match retryDelay with
    | some d =>
      let r := scheduleRetry cfg d s1
      (r.1, outs ++ r.2)
    | none => (s1, outs)

/-- The `onHeadersReceived` handler (lines 168-177): when not aborted,
invoke `onopen`; when it raises, the error is logged and re-thrown wrapped
in `FatalError` — but the handler is an async callback invoked by the
transport after `connect`'s try block has returned, so the `FatalError`
becomes an unhandled promise rejection: `abort()` is not called and the
session state is unchanged. -/
def headersReceivedStep (cfg : Config) (onopenThrows : Bool) (s : SessionState) :
    SessionState × List CallbackCall :=
  if s.isAborted then (s, [])
  else if cfg.hasOnopen then
    if onopenThrows then
      (s, [CallbackCall.onopen, CallbackCall.logError, CallbackCall.unhandledRejection])
    else (s, [CallbackCall.onopen])
  else (s, [])

/-- The `onChunkReceived` handler (lines 179-182 and `handleChunk`): when
not aborted, parse the decoded chunk text, delivering each completed
message to `onmessage` (when supplied) and updating `lastEventId` and
`buffer`. -/
def chunkReceivedStep (cfg : Config) (text : List Char) (s : SessionState) :
    SessionState × List CallbackCall :=
  if s.isAborted then (s, [])
  else
    let r := feedText s.buffer s.lastEventId text
    ({ s with buffer := r.1, lastEventId := r.2.1 },
     if cfg.hasOnmessage then r.2.2.map CallbackCall.onmessage else [])

/-- The retry timer firing (lines 216-219): clear the timer and call
`connect` (which is a no-op when aborted). -/
def timerFireStep (s : SessionState) : SessionState :=
  match s.retryTimer with
  | none => s
  | some _ => connectStep { s with retryTimer := none }

/-- Feed several chunk texts in order, concatenating the observable
calls. -/
def feedMany (cfg : Config) (texts : List (List Char)) (s : SessionState) :
    SessionState × List CallbackCall :=
  texts.foldl
    (fun acc t =>
      let r := chunkReceivedStep cfg t acc.1
      (r.1, acc.2 ++ r.2))
    (s, [])

/-- A concrete configuration with every callback supplied, no extra
headers, default `openWhenHidden = false`, no retry limit: used for
concrete evaluations. -/
def cfgAll : Config :=
  { inputHeaders := fun _ => none, openWhenHidden := false,
    maxRetryCount := none, hasOnopen := true, hasOnmessage := true,
    hasOnclose := true, hasOnerror := true }

/-- `cfgAll` with `maxRetryCount = 2`. -/
def cfgMax2 : Config := { cfgAll with maxRetryCount := some 2 }

/-- A line reaches the `case "id"` branch of the field switch (and hence
overwrites `message.id`): it is neither a record terminator nor a comment,
and its field name is `id`. -/
def LineSetsId (line : List Char) : Prop :=
  ¬ (line = ['\r'] ∨ line = []) ∧ line.head? ≠ some ':' ∧
    (parseFieldValue line).1 = "id".toList

instance (line : List Char) : Decidable (LineSetsId line) := by
  unfold LineSetsId
  infer_instance

/-! ## Helper lemmas -/

/-- A line that does not reach the `id` branch leaves `lastEventId`
untouched and keeps `message.id` unset (the blank-line branch can only
change `lastEventId` through a previously set `message.id`). -/
theorem processLine_preserves_lastEventId (line : List Char) (a : ParseAcc)
    (hid : a.message.id = none) (h : ¬ LineSetsId line) :
    (processLine a line).lastEventId = a.lastEventId ∧
    (processLine a line).message.id = none := by
  by_cases hb : line = ['\r'] ∨ line = []
  · unfold processLine
    rw [if_pos hb]
    cases hd : a.message.data
    · exact ⟨rfl, rfl⟩
    · rw [hid]
      exact ⟨rfl, rfl⟩
  · by_cases hc : line.head? = some ':'
    · unfold processLine
      rw [if_neg hb, if_pos hc]
      exact ⟨rfl, hid⟩
    · have hfid : (parseFieldValue line).1 ≠ "id".toList := fun he => h ⟨hb, hc, he⟩
      unfold processLine
      rw [if_neg hb, if_neg hc]
      dsimp only
      by_cases h1 : (parseFieldValue line).1 = "event".toList
      · rw [if_pos h1]
        exact ⟨rfl, hid⟩
      · rw [if_neg h1]
        by_cases h2 : (parseFieldValue line).1 = "data".toList
        · rw [if_pos h2]
          exact ⟨rfl, hid⟩
        · rw [if_neg h2, if_neg hfid]
          exact ⟨rfl, hid⟩

/-- The line loop leaves `lastEventId` unchanged when no line sets the
`id` field and no `id` is pending at entry. -/
theorem foldl_processLine_no_id (lines : List (List Char)) :
    ∀ a : ParseAcc, a.message.id = none → (∀ l ∈ lines, ¬ LineSetsId l) →
      (lines.foldl processLine a).lastEventId = a.lastEventId ∧
      (lines.foldl processLine a).message.id = none := by
  induction lines with
  | nil => exact fun a h _ => ⟨rfl, h⟩
  | cons l ls ih =>
    intro a hid hall
    have h1 := processLine_preserves_lastEventId l a hid (hall l (by simp))
    have h2 := ih (processLine a l) h1.2 (fun x hx => hall x (by simp [hx]))
    exact ⟨h2.1.trans h1.1, h2.2⟩

/-- State component of a chunk delivery on a live session. -/
theorem chunkReceivedStep_fst (cfg : Config) (text : List Char) (s : SessionState)
    (h : s.isAborted = false) :
    (chunkReceivedStep cfg text s).1
      = { s with buffer := (feedText s.buffer s.lastEventId text).1,
                 lastEventId := (feedText s.buffer s.lastEventId text).2.1 } := by
  simp [chunkReceivedStep, h]

/-- Observable component of a chunk delivery on a live session. -/
theorem chunkReceivedStep_snd (cfg : Config) (text : List Char) (s : SessionState)
    (h : s.isAborted = false) :
    (chunkReceivedStep cfg text s).2
      = (if cfg.hasOnmessage then
          ((feedText s.buffer s.lastEventId text).2.2).map CallbackCall.onmessage
        else []) := by
  simp [chunkReceivedStep, h]

/-! ## Claims -/

/-- C1: the claim asserts that decoding a valid UTF-8 byte sequence in one
chunk equals decoding it split at any byte offset, concatenated, including
a split inside a multi-byte codepoint.  The code violates this: each
chunk is decoded independently and a truncated trailing multi-byte
sequence is dropped, not carried to the next chunk.  The bytes
`[0xc3, 0xa9]` (`é`, valid UTF-8: the encoding of scalar `0xe9`) decode as
one chunk to `[0xe9]`, but split as `[0xc3]` then `[0xa9]` the first chunk
drops the truncated lead byte and the second skips the lone continuation
byte, so the concatenation of the per-chunk results is empty. -/
theorem c1_split_mid_codepoint_loses_text :
    ValidUtf8 [0xc3, 0xa9] ∧
    uint8ArrayToUtf8 [0xc3, 0xa9] = [0xe9] ∧
    uint8ArrayToUtf8 [0xc3] ++ uint8ArrayToUtf8 [0xa9] = [] :=
  ⟨⟨[0xe9], by decide, by decide⟩, by decide, by decide⟩

/-- C2: the claim asserts that feeding an SSE text in one call produces
the same messages as feeding it in pieces, because the parser retains its
cross-call state.  The code retains only the unterminated-line `buffer`;
the partially assembled `message` is a local of each `handleChunk` call.
Feeding `"data: hi\n\n"` at once emits one message, but feeding
`"data: hi\n"` (whose data line is processed and accumulated into the
per-call `message`, then discarded when the call returns) followed by
`"\n"` (which starts with a fresh empty `message`, so the blank line finds
no pending `data`) emits nothing. -/
theorem c2_record_split_across_calls_dropped :
    (feedMany cfgAll ["data: hi\n".toList, "\n".toList] initialState).2 = [] ∧
    (feedMany cfgAll ["data: hi\n\n".toList] initialState).2
      = [CallbackCall.onmessage ⟨none, none, "hi\n".toList⟩] := by decide

/-- C3 counterexample: with `maxRetryCount = 2`, after the initial attempt
and its first retry have both ended in failure (two connection attempts
ended in failure), `scheduleRetry` runs with `retryCount = 1 < 2`, so it
schedules again and the timer fires a third connect attempt — contradicting
the claim that no third connect attempt ever occurs. -/
theorem c3_counterexample_third_connect_occurs :
    ((failStep cfgMax2 false (some 1)
        (timerFireStep
          (failStep cfgMax2 false (some 1) (connectStep initialState)).1)).1).retryTimer
      = some 1 ∧
    (timerFireStep
      (failStep cfgMax2 false (some 1)
        (timerFireStep
          (failStep cfgMax2 false (some 1)
            (connectStep initialState)).1)).1).hasRequestTask = true ∧
    (timerFireStep
      (failStep cfgMax2 false (some 1)
        (timerFireStep
          (failStep cfgMax2 false (some 1)
            (connectStep initialState)).1)).1).isAborted = false := by decide

/-- C3 amended: the budget counts scheduled retries, not attempts: with
`maxRetryCount = 2` the session may connect three times (initial plus two
retries, since failures never reset `retryCount`); once `retryCount` has
reached 2, `scheduleRetry` declines — the state is unchanged (no timer, so
no further connect) and the only observable is a console warning, never an
`onerror` call: the stop is silent. -/
theorem c3_amended_retry_budget_silent_stop (cfg : Config) (d : Nat)
    (s : SessionState) (h1 : cfg.maxRetryCount = some 2)
    (h2 : 2 ≤ s.retryCount) :
    scheduleRetry cfg d s
      = (s, if s.isAborted then [] else [CallbackCall.logWarn]) := by
  unfold scheduleRetry
  rw [h1]
  by_cases hA : s.isAborted
  · rw [if_pos hA, if_pos hA]
  · rw [if_neg hA, if_neg hA]
    dsimp only
    rw [if_pos h2]

/-- C3 amended, witness at `retryCount = 2`. -/
theorem c3_amended_retry_budget_silent_stop_witness :
    cfgMax2.maxRetryCount = some 2 ∧
    2 ≤ ({ initialState with retryCount := 2 } : SessionState).retryCount ∧
    scheduleRetry cfgMax2 5 { initialState with retryCount := 2 }
      = ({ initialState with retryCount := 2 }, [CallbackCall.logWarn]) :=
  ⟨rfl, by decide, by
    have h := c3_amended_retry_budget_silent_stop cfgMax2 5
      { initialState with retryCount := 2 } rfl (by decide)
    simpa using h⟩

/-- C4 counterexample: the claim asserts `retryCount` is reset to 0 on
every successful open (`onopen` completed).  In the trace: initial connect,
transport failure (`retryCount` becomes 1), timer fires, reconnect, headers
received and `onopen` completes — `retryCount` is still 1, not 0: the only
reset in the code is in the `success` (clean stream end) handler. -/
theorem c4_counterexample_successful_open_does_not_reset :
    (headersReceivedStep cfgAll false
        (timerFireStep
          (failStep cfgAll false (some 7) (connectStep initialState)).1)).1.retryCount
      = 1 ∧
    (headersReceivedStep cfgAll false
        (timerFireStep
          (failStep cfgAll false (some 7) (connectStep initialState)).1)).2
      = [CallbackCall.onopen] := by decide

/-- C4 amended: `retryCount` is reset to 0 by the clean-stream-end
(`success`) handler, not on successful open: headers-received (with
`onopen` completing or raising) leaves `retryCount` unchanged, while the
clean-close path zeroes it (isolated here with `openWhenHidden = true`,
which suppresses the subsequent reschedule that would increment it);
`scheduleRetry` increments `retryCount` by one, and sets the timer,
whenever it actually schedules. -/
theorem c4_amended_reset_on_clean_close_not_open (cfg cfg2 cfg3 : Config)
    (b b2 : Bool) (s s2 s3 : SessionState) (d : Nat)
    (h1 : s2.isAborted = false) (h2 : cfg2.openWhenHidden = true)
    (h3 : s3.isAborted = false)
    (h4 : ∀ m, cfg3.maxRetryCount = some m → s3.retryCount < m) :
    (headersReceivedStep cfg b s).1.retryCount = s.retryCount ∧
    (successStep cfg2 b2 s2).1.retryCount = 0 ∧
    (scheduleRetry cfg3 d s3).1.retryCount = s3.retryCount + 1 ∧
    (scheduleRetry cfg3 d s3).1.retryTimer = some d := by
  have hh : (headersReceivedStep cfg b s).1 = s := by
    unfold headersReceivedStep
    split
    · rfl
    · split
      · split <;> rfl
      · rfl
  have hsch : (scheduleRetry cfg3 d s3).1
      = { s3 with retryCount := s3.retryCount + 1, retryTimer := some d } := by
    cases hm : cfg3.maxRetryCount with
    | none => simp [scheduleRetry, h3, hm]
    | some m =>
      have hlt : ¬ m ≤ s3.retryCount := by
        have := h4 m hm
        omega
      simp [scheduleRetry, h3, hm, hlt]
  refine ⟨by rw [hh], ?_, by rw [hsch], by rw [hsch]⟩
  simp [successStep, h1, h2]

/-- C4 amended, witness: open with `retryCount = 5` keeps it 5; clean
close with `retryCount = 4` zeroes it; scheduling from 0 yields 1. -/
theorem c4_amended_reset_on_clean_close_not_open_witness :
    ({ initialState with retryCount := 4 } : SessionState).isAborted = false ∧
    ({ cfgAll with openWhenHidden := true } : Config).openWhenHidden = true ∧
    initialState.isAborted = false ∧
    (headersReceivedStep cfgAll true
      { initialState with retryCount := 5 }).1.retryCount = 5 ∧
    (successStep { cfgAll with openWhenHidden := true } false
      { initialState with retryCount := 4 }).1.retryCount = 0 ∧
    (scheduleRetry cfgAll 9 initialState).1.retryCount = 1 ∧
    (scheduleRetry cfgAll 9 initialState).1.retryTimer = some 9 := by
  have h := c4_amended_reset_on_clean_close_not_open cfgAll
    { cfgAll with openWhenHidden := true } cfgAll true false
    { initialState with retryCount := 5 } { initialState with retryCount := 4 }
    initialState 9 rfl rfl rfl (fun m hm => nomatch hm)
  exact ⟨rfl, rfl, rfl, h.1, h.2.1, h.2.2.1, h.2.2.2⟩

/-- C5: abort finality.  On an aborted session every transport signal
(headers-received, chunk-received, completed, failed) and `scheduleRetry`
return the state unchanged with no observable call at all (in particular no
`onopen`/`onmessage`/`onclose`/`onerror`); `connect` is a no-op; a timer
firing (which only clears the timer and calls `connect`) produces no
observable call — `timerFireStep` returns no observables by construction —
and leaves `isAborted` true; `abort` always leaves `isAborted` true and
calling it again is idempotent. -/
theorem c5_abort_finality (cfg : Config) (s t : SessionState)
    (bOpen bClose bErr : Bool) (r : Option Nat) (txt : List Char) (d : Nat)
    (h : s.isAborted = true) :
    headersReceivedStep cfg bOpen s = (s, []) ∧
    chunkReceivedStep cfg txt s = (s, []) ∧
    successStep cfg bClose s = (s, []) ∧
    failStep cfg bErr r s = (s, []) ∧
    scheduleRetry cfg d s = (s, []) ∧
    connectStep s = s ∧
    (timerFireStep s).isAborted = true ∧
    (abortStep t).isAborted = true ∧
    abortStep (abortStep t) = abortStep t := by
  refine ⟨?_, ?_, ?_, ?_, ?_, ?_, ?_, rfl, rfl⟩ <;>
    first
      | simp [headersReceivedStep, chunkReceivedStep, successStep, failStep,
          scheduleRetry, connectStep, h]
      | (cases hr : s.retryTimer <;>
          simp [timerFireStep, connectStep, h, hr])

/-- C5, witness on the state right after `abort()`. -/
theorem c5_abort_finality_witness :
    (abortStep initialState).isAborted = true ∧
    headersReceivedStep cfgAll true (abortStep initialState)
      = (abortStep initialState, []) ∧
    chunkReceivedStep cfgAll ("data: x\n\n".toList) (abortStep initialState)
      = (abortStep initialState, []) ∧
    successStep cfgAll false (abortStep initialState)
      = (abortStep initialState, []) ∧
    failStep cfgAll false (some 1) (abortStep initialState)
      = (abortStep initialState, []) ∧
    abortStep (abortStep initialState) = abortStep initialState := by
  have h := c5_abort_finality cfgAll (abortStep initialState) initialState
    true false false (some 1) ("data: x\n\n".toList) 0 rfl
  exact ⟨rfl, h.1, h.2.1, h.2.2.1, h.2.2.2.1, h.2.2.2.2.2.2.2.2⟩

/-- C6: the claim asserts a raising `onopen` aborts the session and
propagates to the caller of `connect`.  The code intends this (it wraps
the error in `FatalError`, and `connect`'s catch block aborts and
rethrows on `FatalError`), but the wrap-and-throw happens inside the async
`onHeadersReceived` handler, which the transport invokes after `connect`'s
try block has returned: the `FatalError` is an unhandled promise
rejection, the catch never runs, nothing propagates, and the session is
not aborted — a subsequent chunk still delivers `onmessage`. -/
theorem c6_onopen_exception_not_fatal_not_propagated :
    (headersReceivedStep cfgAll true (connectStep initialState)).1.isAborted
      = false ∧
    (headersReceivedStep cfgAll true (connectStep initialState)).1
      = connectStep initialState ∧
    (headersReceivedStep cfgAll true (connectStep initialState)).2
      = [CallbackCall.onopen, CallbackCall.logError,
         CallbackCall.unhandledRejection] ∧
    (chunkReceivedStep cfgAll ("data: x\n\n".toList)
        (headersReceivedStep cfgAll true (connectStep initialState)).1).2
      = [CallbackCall.onmessage ⟨none, none, "x\n".toList⟩] := by decide

/-- C7: after a message with id `"42"` is delivered (first chunk), the
session's `lastEventId` is `"42"`; a later chunk none of whose complete
lines carries an `id` field leaves it `"42"`; and the headers of any
subsequent connect attempt map `last-event-id` to `"42"`. -/
theorem c7_last_event_id_propagation (cfg : Config) (text2 : List Char)
    (hm : cfg.hasOnmessage = true)
    (hnoid : ∀ l ∈ (text2.splitOn '\n').dropLast, ¬ LineSetsId l) :
    (chunkReceivedStep cfg ("id: 42\ndata: a\n\n".toList) initialState).2
      = [CallbackCall.onmessage ⟨some ("42".toList), none, ("a\n".toList)⟩] ∧
    (chunkReceivedStep cfg ("id: 42\ndata: a\n\n".toList)
        initialState).1.lastEventId = "42".toList ∧
    (chunkReceivedStep cfg text2
        (chunkReceivedStep cfg ("id: 42\ndata: a\n\n".toList)
          initialState).1).1.lastEventId = "42".toList ∧
    requestHeaders cfg
      (chunkReceivedStep cfg text2
        (chunkReceivedStep cfg ("id: 42\ndata: a\n\n".toList)
          initialState).1).1.lastEventId
      LastEventIdHeader = some ("42".toList) := by
  have h0 : initialState.isAborted = false := rfl
  have hfeed : feedText initialState.buffer initialState.lastEventId
      ("id: 42\ndata: a\n\n".toList)
      = ([], "42".toList, [⟨some ("42".toList), none, "a\n".toList⟩]) := by decide
  have hs1 : (chunkReceivedStep cfg ("id: 42\ndata: a\n\n".toList) initialState).1
      = { initialState with buffer := [], lastEventId := "42".toList } := by
    rw [chunkReceivedStep_fst cfg _ initialState h0, hfeed]
  have hout : (chunkReceivedStep cfg ("id: 42\ndata: a\n\n".toList) initialState).2
      = [CallbackCall.onmessage ⟨some ("42".toList), none, ("a\n".toList)⟩] := by
    rw [chunkReceivedStep_snd cfg _ initialState h0, hfeed]
    simp [hm]
  have hs2 : (chunkReceivedStep cfg text2
        (chunkReceivedStep cfg ("id: 42\ndata: a\n\n".toList)
          initialState).1).1.lastEventId = "42".toList := by
    rw [hs1, chunkReceivedStep_fst cfg text2 _ rfl]
    show (feedText [] ("42".toList) text2).2.1 = "42".toList
    unfold feedText
    exact (foldl_processLine_no_id _ _ rfl hnoid).1
  refine ⟨hout, by rw [hs1], hs2, ?_⟩
  rw [hs2]
  simp [requestHeaders, LastEventIdHeader]

/-- C7, witness: the later chunk is a record with only a `data` field. -/
theorem c7_last_event_id_propagation_witness :
    cfgAll.hasOnmessage = true ∧
    (∀ l ∈ (("data: later\n\n".toList).splitOn '\n').dropLast, ¬ LineSetsId l) ∧
    requestHeaders cfgAll
      (chunkReceivedStep cfgAll ("data: later\n\n".toList)
        (chunkReceivedStep cfgAll ("id: 42\ndata: a\n\n".toList)
          initialState).1).1.lastEventId
      LastEventIdHeader = some ("42".toList) :=
  ⟨rfl, by decide,
   (c7_last_event_id_propagation cfgAll ("data: later\n\n".toList) rfl
      (by decide)).2.2.2⟩

/-- C8: on clean stream end with the session live, `openWhenHidden =
false`, `onclose` supplied, and the retry budget not already exhausted at
zero, the `success` handler invokes `onclose` exactly once (a raising
`onclose` only adds a log entry and changes nothing else), resets
`retryCount` to 0 and then schedules a reconnect with the default interval
of 1000 ms (the scheduling increments the freshly reset counter to 1). -/
theorem c8_clean_close_reconnects (cfg : Config) (b : Bool) (s : SessionState)
    (h1 : s.isAborted = false) (h2 : cfg.openWhenHidden = false)
    (h3 : cfg.hasOnclose = true)
    (h4 : ∀ m, cfg.maxRetryCount = some m → 0 < m) :
    successStep cfg b s
      = ({ s with retryCount := 1, hasRequestTask := false,
                  retryTimer := some DefaultRetryInterval },
         CallbackCall.onclose :: (if b then [CallbackCall.logError] else [])) ∧
    DefaultRetryInterval = 1000 := by
  refine ⟨?_, rfl⟩
  cases hm : cfg.maxRetryCount with
  | none => cases b <;> simp [successStep, scheduleRetry, h1, h2, h3, hm]
  | some m =>
    have hmpos : ¬ m ≤ 0 := by
      have := h4 m hm
      omega
    cases b <;> simp [successStep, scheduleRetry, h1, h2, h3, hm, hmpos]

/-- C8, witness on the fresh session with a non-raising `onclose`. -/
theorem c8_clean_close_reconnects_witness :
    initialState.isAborted = false ∧
    cfgAll.openWhenHidden = false ∧
    cfgAll.hasOnclose = true ∧
    successStep cfgAll false initialState
      = ({ initialState with retryCount := 1, hasRequestTask := false,
                             retryTimer := some DefaultRetryInterval },
         [CallbackCall.onclose]) := by
  have h := (c8_clean_close_reconnects cfgAll false initialState rfl rfl rfl
    (fun m hm => nomatch hm)).1
  exact ⟨rfl, rfl, rfl, by simpa using h⟩

/-- C9 counterexample: the claim asserts that a malformed byte is skipped
and every subsequent valid byte in the chunk is still decoded.  For an
invalid continuation byte the code `break`s out of the whole loop instead:
in `[0xc3, 0x41, 0x42]` the byte `0x41` is an invalid continuation for the
lead byte `0xc3`, and the decoder returns nothing — the valid trailing
bytes `0x41, 0x42` (which on their own decode to themselves) are
discarded, not decoded. -/
theorem c9_counterexample_invalid_continuation_discards_rest :
    uint8ArrayToUtf8 [0xc3, 0x41, 0x42] = [] ∧
    uint8ArrayToUtf8 [0x41, 0x42] = [0x41, 0x42] := by decide

/-- C9 amended: the skip-and-continue recovery holds only for invalid
*leading* bytes (a byte ≥ 0x80 that starts none of the recognized
multi-byte forms, i.e. 0x80-0xc1 or 0xf5 and above): such a byte is
dropped and decoding continues with the rest undisturbed.  An invalid or
truncated *continuation* sequence instead stops the decode of the
remainder of the chunk (see the counterexample); no input ever makes the
decoder fail, it only returns the prefix decoded so far. -/
theorem c9_amended_invalid_leading_byte_skipped (b : Nat) (rest : List Nat)
    (h1 : ¬ b < 0x80) (h2 : ¬ (0xc2 ≤ b ∧ b ≤ 0xdf))
    (h3 : ¬ (0xe0 ≤ b ∧ b ≤ 0xef)) (h4 : ¬ (0xf0 ≤ b ∧ b ≤ 0xf4)) :
    uint8ArrayToUtf8 (b :: rest) = uint8ArrayToUtf8 rest := by
  match rest with
  | [] =>
    conv_lhs => rw [uint8ArrayToUtf8]
    rw [if_neg h1, if_neg h2, if_neg h3, if_neg h4]
  | [b2] =>
    conv_lhs => rw [uint8ArrayToUtf8]
    rw [if_neg h1, if_neg h2, if_neg h3, if_neg h4]
  | [b2, b3] =>
    conv_lhs => rw [uint8ArrayToUtf8]
    rw [if_neg h1, if_neg h2, if_neg h3, if_neg h4]
  | b2 :: b3 :: b4 :: r =>
    conv_lhs => rw [uint8ArrayToUtf8]
    rw [if_neg h1, if_neg h2, if_neg h3, if_neg h4]

/-- C9 amended, witness at the invalid leading byte `0x80`. -/
theorem c9_amended_invalid_leading_byte_skipped_witness :
    (¬ (0x80 : Nat) < 0x80) ∧ (¬ ((0xc2 : Nat) ≤ 0x80 ∧ (0x80 : Nat) ≤ 0xdf)) ∧
    (¬ ((0xe0 : Nat) ≤ 0x80 ∧ (0x80 : Nat) ≤ 0xef)) ∧
    (¬ ((0xf0 : Nat) ≤ 0x80 ∧ (0x80 : Nat) ≤ 0xf4)) ∧
    uint8ArrayToUtf8 [0x80, 0x41] = uint8ArrayToUtf8 [0x41] :=
  ⟨by decide, by decide, by decide, by decide,
   c9_amended_invalid_leading_byte_skipped 0x80 [0x41]
     (by decide) (by decide) (by decide) (by decide)⟩

/-- C10: a line that is exactly `data` (no colon) is parsed as field
`data` with empty value, appending a bare newline to the pending data, so
the record `"data\n\n"` is emitted as a message whose data is `"\n"`, not
discarded. -/
theorem c10_bare_data_line_emits_newline :
    parseFieldValue ("data".toList) = ("data".toList, []) ∧
    (chunkReceivedStep cfgAll ("data\n\n".toList) initialState).2
      = [CallbackCall.onmessage ⟨none, none, ['\n']⟩] := by decide

end TaroSSE
